import Mathlib

/-!
Shallow embedding of `contrib/generate_icons.py` from
hyprland-community/hyprland-autoname-workspaces, together with theorems
settling the specification claims about it.

The script fetches the Font Awesome `icons.yml` catalog, and prints an
`[icons]` section: a header line, two fixed custom entries (alacritty,
kitty), and one line per icon name (plus aliases when requested).

Modelling conventions:
  * Python exceptions are `PyError` values propagated in `Except` /
    result pairs; printed output is accumulated as a `List Line`.
  * `chr`/`int(s, 16)` are modelled on `Nat`/`Int` (a "character" is its
    code point, since Python code points include surrogates).
  * the `requests.get` call and `yaml.full_load` are external library
    calls; `main` takes them as explicit function arguments (`get`
    returning `none` models a raised request exception, and likewise for
    the YAML parser).
-/

namespace GenerateIcons

/-- Python exception kinds that the script can raise. -/
inductive PyError where
  | valueError
  | keyError
  deriving DecidableEq, Repr

/-! ### Model of Python's `int(s, 16)` and `chr` -/

/-- ASCII hexadecimal digit, as accepted by `int(s, 16)`. -/
def isAsciiHexDigit (c : Char) : Bool :=
  (48 ≤ c.toNat && c.toNat ≤ 57) || (97 ≤ c.toNat && c.toNat ≤ 102) ||
    (65 ≤ c.toNat && c.toNat ≤ 70)

/-- Numeric value of a hexadecimal digit (0 for non-digits). -/
def hexDigitVal (c : Char) : Nat :=
  if 48 ≤ c.toNat ∧ c.toNat ≤ 57 then c.toNat - 48
  else if 97 ≤ c.toNat ∧ c.toNat ≤ 102 then c.toNat - 87
  else if 65 ≤ c.toNat ∧ c.toNat ≤ 70 then c.toNat - 55
  else 0

/-- Whitespace characters stripped by `int()` before parsing. -/
def isPySpace (c : Char) : Bool :=
  c.toNat = 32 || c.toNat = 9 || c.toNat = 10 || c.toNat = 13 ||
    c.toNat = 11 || c.toNat = 12

/-- Strip leading and trailing whitespace, as `int()` does. -/
def pyStrip (l : List Char) : List Char :=
  ((l.dropWhile isPySpace).reverse.dropWhile isPySpace).reverse

/-- Consume an optional leading sign; returns (negative?, rest). -/
def afterSign (l : List Char) : Bool × List Char :=
  match l with
  | [] => (false, [])
  | c :: rest =>
    if c = '+' then (false, rest)
    else if c = '-' then (true, rest)
    else (false, c :: rest)

/-- Drop an optional `0x`/`0X` marker (one underscore may follow it). -/
def dropHexMark (l : List Char) : List Char :=
  match l with
  | c0 :: c1 :: rest =>
    if c0 = '0' ∧ (c1 = 'x' ∨ c1 = 'X') then
      match rest with
      | c2 :: r2 => if c2 = '_' then r2 else rest
      | [] => rest
    else l
  | _ => l

/-- Digit run after the first digit: single underscores may separate
digits, but may not trail or repeat. -/
def hexRunAux (acc : Nat) : List Char → Option Nat
  | [] => some acc
  | c :: rest =>
    if c = '_' then
      match rest with
      | [] => none
      | c2 :: r2 =>
        if isAsciiHexDigit c2 then hexRunAux (16 * acc + hexDigitVal c2) r2
        else none
    else
      if isAsciiHexDigit c then hexRunAux (16 * acc + hexDigitVal c) rest
      else none

/-- A non-empty run of hexadecimal digits, evaluated to its value. -/
def hexRun (l : List Char) : Option Nat :=
  match l with
  | [] => none
  | c :: rest =>
    if isAsciiHexDigit c then hexRunAux (hexDigitVal c) rest else none

/-- Model of CPython `int(s, 16)`: strip whitespace, optional sign,
optional `0x` marker, then a digit run; `none` models `ValueError`. -/
def parseHexLiteral (s : String) : Option Int :=
  match hexRun (dropHexMark (afterSign (pyStrip s.toList)).2) with
  | none => none
  | some n =>
    if (afterSign (pyStrip s.toList)).1 then some (-(n : Int)) else some (n : Int)

/-- `int(hex_code, 16)` with the `ValueError` made explicit. -/
def pyInt16 (s : String) : Except PyError Int :=
  match parseHexLiteral s with
  | none => Except.error PyError.valueError
  | some n => Except.ok n

/-- Model of Python `chr`: valid for code points `0 ≤ n ≤ 0x10FFFF`
(surrogates included); the returned character is its code point. -/
def pyChr (n : Int) : Except PyError Nat :=
  if 0 ≤ n ∧ n ≤ 1114111 then Except.ok n.toNat
  else Except.error PyError.valueError

/-- `unicode_symbol` from the script: `chr(int(hex_code, 16))`. -/
def unicode_symbol (hex_code : String) : Except PyError Nat :=
  match pyInt16 hex_code with
  | Except.error e => Except.error e
  | Except.ok n => pyChr n

/-- Base-16 value of a digit string, most significant digit first. -/
def hexVal (l : List Char) : Nat :=
  l.foldl (fun a c => 16 * a + hexDigitVal c) 0

/-! ### Data model: the parsed icon catalog -/

/-- An icon entry as the script accesses it.  `unicode` is the value of
`icon["unicode"]` (`none` when the key is missing, so the lookup raises
`KeyError`).  `search_terms` is the value of `icon["search"]["terms"]`:
the outer `none` means the `search`/`terms` structure is absent (the
lookup raises `KeyError`); `some none` means the key holds Python
`None`; `some (some ts)` is an actual list of alias strings. -/
structure Icon where
  unicode : Option String
  search_terms : Option (Option (List String))
  deriving DecidableEq, Repr

/-- The parsed `icons.yml`: an ordered mapping name to entry. -/
abbrev Catalog := List (String × Icon)

/-- One line printed to standard output. `entry name cp` stands for the
text `"(?i)name" = "c"` with `c` the character at code point `cp`. -/
inductive Line where
  | header
  | entry (name : String) (cp : Nat)
  deriving DecidableEq, Repr

/-! ### The script's functions

Each printing function returns the list of lines it wrote together
with `some e` when it ended by raising the exception `e` (lines written
before the exception are kept: output is streamed). -/

/-- `print_custom_icons`: the two fixed alacritty/kitty lines, each
rendering `unicode_symbol(term_icon)`. -/
def term_icon : String := "f120"

def print_custom_icons : List Line × Option PyError :=
  match unicode_symbol term_icon with
  | Except.error e => ([], some e)
  | Except.ok cp1 =>
    match unicode_symbol term_icon with
    | Except.error e => ([Line.entry "alacritty" cp1], some e)
    | Except.ok cp2 => ([Line.entry "alacritty" cp1, Line.entry "kitty" cp2], none)

/-- The candidate-name list built for one entry:
`[icon_name] + (icon["search"]["terms"] if include_aliases and
icon["search"]["terms"] is not None else [])`.  The `and` short-circuit
means the `search`/`terms` lookup happens only when
`include_aliases` is true. -/
def iconNames (include_aliases : Bool) (icon_name : String) (icon : Icon) :
    Except PyError (List String) :=
  if include_aliases then
    match icon.search_terms with
    | none => Except.error PyError.keyError
    | some none => Except.ok [icon_name]
    | some (some terms) => Except.ok (icon_name :: terms)
  else Except.ok [icon_name]

/-- The inner loop over the (already filtered) names: each iteration
looks up `icon["unicode"]`, converts it, and prints one line. -/
def emitFiltered (icon : Icon) : List String → List Line × Option PyError
  | [] => ([], none)
  | name :: rest =>
    match icon.unicode with
    | none => ([], some PyError.keyError)
    | some u =>
      match unicode_symbol u with
      | Except.error e => ([], some e)
      | Except.ok cp =>
        let p := emitFiltered icon rest
        (Line.entry name cp :: p.1, p.2)

/-- Lines produced for a single catalog entry: build the candidate
names, filter out empty strings, then print each. -/
def entryOutput (include_aliases : Bool) (icon_name : String) (icon : Icon) :
    List Line × Option PyError :=
  match iconNames include_aliases icon_name icon with
  | Except.error e => ([], some e)
  | Except.ok names => emitFiltered icon (names.filter (fun x => x ≠ ""))

/-- `print_icon_names`: loop over all catalog entries in order; an
exception aborts the remaining entries. -/
def print_icon_names (icons_dict : Catalog) (include_aliases : Bool) :
    List Line × Option PyError :=
  match icons_dict with
  | [] => ([], none)
  | (icon_name, icon) :: rest =>
    let p := entryOutput include_aliases icon_name icon
    match p.2 with
    | some e => (p.1, some e)
    | none =>
      let q := print_icon_names rest include_aliases
      (p.1 ++ q.1, q.2)

/-! ### `main` and the command line -/

/-- What `requests.get(uri)` yields when no exception is raised: the
script only ever reads `.text`, but the response carries its HTTP
status code, which we keep to reason about status handling. -/
structure HttpResponse where
  status : Nat
  text : String
  deriving DecidableEq, Repr

/-- How a run can fail: a raised request exception, a raised YAML
parsing exception, or a Python error from the printing code. -/
inductive RunError where
  | fetchExn
  | parseExn
  | py (e : PyError)
  deriving DecidableEq, Repr

/-- `main(uri, version, include_aliases)`.  The library calls are
passed in as functions: `get` models `requests.get` (`none` = raised
exception; otherwise a response whose `.text` is used), and
`yaml_full_load` models `yaml.full_load` (`none` = parse exception).
`version` is accepted and unused, exactly as in the script. -/
def main (get : String → Option HttpResponse)
    (yaml_full_load : String → Option Catalog)
    (uri version : String) (include_aliases : Bool) :
    List Line × Option RunError :=
  match get uri with
  | none => ([], some RunError.fetchExn)
  | some resp =>
    match yaml_full_load resp.text with
    | none => ([], some RunError.parseExn)
    | some icons_dict =>
      match print_custom_icons with
      | (cls, some e) => (Line.header :: cls, some (RunError.py e))
      | (cls, none) =>
        (Line.header :: (cls ++ (print_icon_names icons_dict include_aliases).1),
         (print_icon_names icons_dict include_aliases).2.map RunError.py)

/-- Process exit status: 0 on success, 1 when an exception escaped. -/
def exitCode (r : List Line × Option RunError) : Nat :=
  match r.2 with
  | none => 0
  | some _ => 1

/-- The fetch URI built in the `__main__` block:
`"https://raw.githubusercontent.com"` concatenated with the formatted
`"/FortAwesome/Font-Awesome/{REVISION}/metadata/icons.yml"`. -/
def buildURI (revision : String) : String :=
  "https://raw.githubusercontent.com" ++
    ("/FortAwesome/Font-Awesome/" ++ revision ++ "/metadata/icons.yml")

/-- argparse resolution of `--revision`: the given value, or the
declared default `"master"` when the flag is absent. -/
def resolveRevision (arg : Option String) : String :=
  arg.getD "master"

/-! ### Concrete runs used by counterexamples and witnesses -/

/-- A completed response with a non-success status whose body still
parses as a well-formed catalog (used against claim C5). -/
def cexGet : String → Option HttpResponse :=
  fun _ => some ⟨404, "icons yaml body"⟩

def cexCatalog : Catalog := [("icon", ⟨some "f26e", some (some [])⟩)]

def cexYaml : String → Option Catalog := fun _ => some cexCatalog

/-- A successful fetch used by witnesses. -/
def wGet : String → Option HttpResponse := fun _ => some ⟨200, "yaml body"⟩

def wCatalog : Catalog := [("500px", ⟨some "f26e", some (some ["px"])⟩)]

def wYaml : String → Option Catalog := fun _ => some wCatalog

/-- A raised request exception (unreachable host). -/
def gFail : String → Option HttpResponse := fun _ => none

/-- A catalog whose single entry lacks the alias structure and carries
a non-hexadecimal `unicode` field (used against claim C10). -/
def cCat10 : Catalog := [("x", ⟨some "zz", none⟩)]

def cGet10 : String → Option HttpResponse := fun _ => some ⟨200, "body10"⟩

def cYaml10 : String → Option Catalog := fun _ => some cCat10

/-! ### Sanity checks of the embedding on concrete inputs -/

example : unicode_symbol "f120" = Except.ok 61728 := rfl
example : unicode_symbol "f26e" = Except.ok 62062 := rfl
example : unicode_symbol "zz" = Except.error PyError.valueError := rfl
example : unicode_symbol "0x10" = Except.ok 16 := rfl
example : unicode_symbol "-f" = Except.error PyError.valueError := rfl
example : unicode_symbol " f120 " = Except.ok 61728 := rfl
example : unicode_symbol "110000" = Except.error PyError.valueError := rfl
example : unicode_symbol "f1_20" = Except.ok 61728 := rfl
example : unicode_symbol "f1__20" = Except.error PyError.valueError := rfl
example : unicode_symbol "f120_" = Except.error PyError.valueError := rfl

example : print_custom_icons =
    ([Line.entry "alacritty" 61728, Line.entry "kitty" 61728], none) := rfl
example :
    print_icon_names [("500px", ⟨some "f26e", some (some ["px"])⟩)] false =
      ([Line.entry "500px" 62062], none) := rfl
example :
    print_icon_names [("500px", ⟨some "f26e", some (some ["px"])⟩)] true =
      ([Line.entry "500px" 62062, Line.entry "px" 62062], none) := rfl
example :
    print_icon_names [("500px", ⟨some "f26e", some (some ["px", ""])⟩)] true =
      ([Line.entry "500px" 62062, Line.entry "px" 62062], none) := rfl
example :
    print_icon_names [("a", ⟨some "f26e", none⟩)] true =
      ([], some PyError.keyError) := rfl
example :
    print_icon_names [("a", ⟨some "f26e", none⟩)] false =
      ([Line.entry "a" 62062], none) := rfl
example : buildURI "master" =
    "https://raw.githubusercontent.com/FortAwesome/Font-Awesome/master/metadata/icons.yml" := rfl

/-! ### Helper lemmas about the hexadecimal parser -/

theorem hex_not_space {c : Char} (h : isAsciiHexDigit c = true) :
    isPySpace c = false := by
  simp only [isAsciiHexDigit, Bool.or_eq_true, Bool.and_eq_true,
    decide_eq_true_eq] at h
  simp only [isPySpace, Bool.or_eq_false_iff, decide_eq_false_iff_not]
  omega

theorem hex_toNat_mem {c : Char} (h : isAsciiHexDigit c = true) :
    (48 ≤ c.toNat ∧ c.toNat ≤ 57) ∨ (97 ≤ c.toNat ∧ c.toNat ≤ 102) ∨
      (65 ≤ c.toNat ∧ c.toNat ≤ 70) := by
  simp only [isAsciiHexDigit, Bool.or_eq_true, Bool.and_eq_true,
    decide_eq_true_eq] at h
  omega

theorem hex_ne {c : Char} (h : isAsciiHexDigit c = true) {d : Char}
    (hd : ¬ ((48 ≤ d.toNat ∧ d.toNat ≤ 57) ∨ (97 ≤ d.toNat ∧ d.toNat ≤ 102) ∨
      (65 ≤ d.toNat ∧ d.toNat ≤ 70))) : c ≠ d := by
  intro hEq
  exact hd (hEq ▸ hex_toNat_mem h)

theorem hex_ne_under {c : Char} (h : isAsciiHexDigit c = true) : c ≠ '_' :=
  hex_ne h (by decide)

theorem hex_ne_plus {c : Char} (h : isAsciiHexDigit c = true) : c ≠ '+' :=
  hex_ne h (by decide)

theorem hex_ne_minus {c : Char} (h : isAsciiHexDigit c = true) : c ≠ '-' :=
  hex_ne h (by decide)

theorem hex_ne_x {c : Char} (h : isAsciiHexDigit c = true) : c ≠ 'x' :=
  hex_ne h (by decide)

theorem hex_ne_X {c : Char} (h : isAsciiHexDigit c = true) : c ≠ 'X' :=
  hex_ne h (by decide)

theorem hexDigitVal_le (c : Char) : hexDigitVal c ≤ 15 := by
  unfold hexDigitVal
  split_ifs <;> omega

theorem dropWhile_space_all_hex {l : List Char}
    (h : ∀ c ∈ l, isAsciiHexDigit c = true) :
    l.dropWhile isPySpace = l := by
  cases l with
  | nil => rfl
  | cons a t =>
    have ha := hex_not_space (h a (List.mem_cons_self a t))
    simp [List.dropWhile_cons, ha]

theorem pyStrip_all_hex {l : List Char}
    (h : ∀ c ∈ l, isAsciiHexDigit c = true) : pyStrip l = l := by
  unfold pyStrip
  rw [dropWhile_space_all_hex h,
    dropWhile_space_all_hex (fun c hc => h c (List.mem_reverse.mp hc)),
    List.reverse_reverse]

theorem afterSign_all_hex {l : List Char}
    (h : ∀ c ∈ l, isAsciiHexDigit c = true) : afterSign l = (false, l) := by
  cases l with
  | nil => rfl
  | cons a t =>
    have ha := h a (List.mem_cons_self a t)
    simp only [afterSign, if_neg (hex_ne_plus ha), if_neg (hex_ne_minus ha)]

theorem dropHexMark_all_hex {l : List Char}
    (h : ∀ c ∈ l, isAsciiHexDigit c = true) : dropHexMark l = l := by
  match l with
  | [] => rfl
  | [c] => rfl
  | c0 :: c1 :: rest =>
    have h1 : isAsciiHexDigit c1 = true :=
      h c1 (List.mem_cons_of_mem c0 (List.mem_cons_self c1 rest))
    have : ¬ (c0 = '0' ∧ (c1 = 'x' ∨ c1 = 'X')) := by
      rintro ⟨-, hx | hX⟩
      · exact hex_ne_x h1 hx
      · exact hex_ne_X h1 hX
    simp only [dropHexMark, if_neg this]

theorem hexRunAux_all_hex {l : List Char}
    (h : ∀ c ∈ l, isAsciiHexDigit c = true) : ∀ acc : Nat,
    hexRunAux acc l = some (l.foldl (fun a c => 16 * a + hexDigitVal c) acc) := by
  induction l with
  | nil => intro acc; rfl
  | cons c t ih =>
    intro acc
    have hc : isAsciiHexDigit c = true := h c (List.mem_cons_self c t)
    have step : hexRunAux acc (c :: t) =
        hexRunAux (16 * acc + hexDigitVal c) t := by
      clear ih h
      rw [hexRunAux.eq_def]
      show (if c = '_' then
          match t with
          | [] => none
          | c2 :: r2 =>
            if isAsciiHexDigit c2 then hexRunAux (16 * acc + hexDigitVal c2) r2
            else none
        else
          if isAsciiHexDigit c then hexRunAux (16 * acc + hexDigitVal c) t
          else none) = hexRunAux (16 * acc + hexDigitVal c) t
      rw [if_neg (hex_ne_under hc), if_pos hc]
    rw [step, List.foldl_cons]
    exact ih (fun c' hc' => h c' (List.mem_cons_of_mem c hc')) _

theorem hexRun_all_hex {l : List Char} (hne : l ≠ [])
    (h : ∀ c ∈ l, isAsciiHexDigit c = true) : hexRun l = some (hexVal l) := by
  cases l with
  | nil => exact absurd rfl hne
  | cons c t =>
    have hc : isAsciiHexDigit c = true := h c (List.mem_cons_self c t)
    simp only [hexRun, if_pos hc]
    rw [hexRunAux_all_hex (fun c' hc' => h c' (List.mem_cons_of_mem c hc'))]
    simp [hexVal]

theorem parseHexLiteral_all_hex {s : String} (hne : s.toList ≠ [])
    (h : ∀ c ∈ s.toList, isAsciiHexDigit c = true) :
    parseHexLiteral s = some ((hexVal s.toList : Nat) : Int) := by
  unfold parseHexLiteral
  rw [pyStrip_all_hex h, afterSign_all_hex h]
  rw [dropHexMark_all_hex h, hexRun_all_hex hne h]
  simp

theorem foldl_hex_lt (l : List Char) : ∀ acc : Nat,
    l.foldl (fun a c => 16 * a + hexDigitVal c) acc < 16 ^ l.length * (acc + 1) := by
  induction l with
  | nil => intro acc; simp
  | cons c t ih =>
    intro acc
    have h1 := ih (16 * acc + hexDigitVal c)
    have h2 : hexDigitVal c ≤ 15 := hexDigitVal_le c
    have h3 : (16 : Nat) ^ t.length * (16 * acc + hexDigitVal c + 1) ≤
        16 ^ t.length * (16 * (acc + 1)) :=
      Nat.mul_le_mul_left _ (by omega)
    have h4 : (16 : Nat) ^ t.length * (16 * (acc + 1)) =
        16 ^ (t.length + 1) * (acc + 1) := by
      rw [pow_succ]; ring
    simp only [List.foldl_cons, List.length_cons]
    calc t.foldl (fun a c => 16 * a + hexDigitVal c) (16 * acc + hexDigitVal c)
        < 16 ^ t.length * (16 * acc + hexDigitVal c + 1) := h1
      _ ≤ 16 ^ t.length * (16 * (acc + 1)) := h3
      _ = 16 ^ (t.length + 1) * (acc + 1) := h4

/-! ### Claims C3 and C4: `decodeCodePoint` -/

/-- Claim C3: for every valid 4-digit hexadecimal string, whose value is
then a valid code point, `unicode_symbol` returns the character whose
code point is the base-16 value of the string; in particular
`unicode_symbol "f120"` is the character U+F120 (code point 61728). -/
theorem C3_decode_hex4 :
    (∀ s : String, s.toList.length = 4 →
      (∀ c ∈ s.toList, isAsciiHexDigit c = true) →
      unicode_symbol s = Except.ok (hexVal s.toList)) ∧
    unicode_symbol "f120" = Except.ok 61728 := by
  constructor
  · intro s h4 hh
    have hne : s.toList ≠ [] := by
      intro hE; rw [hE] at h4; simp at h4
    have hp := parseHexLiteral_all_hex hne hh
    have hlt : hexVal s.toList < 65536 := by
      have := foldl_hex_lt s.toList 0
      rw [h4] at this
      simpa [hexVal] using this
    have hrange : (0 : Int) ≤ (hexVal s.toList : Int) ∧
        (hexVal s.toList : Int) ≤ 1114111 := by omega
    unfold unicode_symbol pyInt16
    rw [hp]
    show pyChr ((hexVal s.toList : Nat) : Int) = Except.ok (hexVal s.toList)
    unfold pyChr
    rw [if_pos hrange]
    simp
  · rfl

/-- Witness for C3 at the concrete 4-digit input "abcd". -/
theorem C3_witness :
    unicode_symbol "abcd" = Except.ok (hexVal "abcd".toList) :=
  C3_decode_hex4.1 "abcd" (by decide) (by decide)

/-- Claim C4: `unicode_symbol hex` fails with a decoding error exactly
when `hex` is not a valid hexadecimal numeral (the model of
`int(hex, 16)` rejects it) or its value is not a valid code point
(outside `0 .. 0x10FFFF`); otherwise it returns the character at that
code point. -/
theorem C4_decode_error_iff : ∀ s : String,
    (parseHexLiteral s = none →
      unicode_symbol s = Except.error PyError.valueError) ∧
    (∀ n : Int, parseHexLiteral s = some n → ¬ (0 ≤ n ∧ n ≤ 1114111) →
      unicode_symbol s = Except.error PyError.valueError) ∧
    (∀ n : Int, parseHexLiteral s = some n → (0 ≤ n ∧ n ≤ 1114111) →
      unicode_symbol s = Except.ok n.toNat) := by
  intro s
  refine ⟨?_, ?_, ?_⟩
  · intro hp
    simp [unicode_symbol, pyInt16, hp]
  · intro n hp hr
    simp [unicode_symbol, pyInt16, pyChr, hp, hr]
  · intro n hp hr
    simp [unicode_symbol, pyInt16, pyChr, hp, hr]

/-- Witness for C4: an invalid numeral fails, a valid in-range numeral
succeeds. -/
theorem C4_witness :
    unicode_symbol "zz" = Except.error PyError.valueError ∧
    unicode_symbol "f120" = Except.ok ((61728 : Int).toNat) :=
  ⟨(C4_decode_error_iff "zz").1 rfl,
    (C4_decode_error_iff "f120").2.2 61728 rfl (by constructor <;> decide)⟩

/-! ### Helper lemmas about catalog emission -/

theorem emitFiltered_ok {icon : Icon} {u : String} {cp : Nat}
    (h1 : icon.unicode = some u) (h2 : unicode_symbol u = Except.ok cp) :
    ∀ l : List String,
    emitFiltered icon l = (l.map (fun n => Line.entry n cp), none) := by
  intro l
  induction l with
  | nil => rfl
  | cons a t ih => simp [emitFiltered, h1, h2, ih]

theorem iconNames_false (icon_name : String) (icon : Icon) :
    iconNames false icon_name icon = Except.ok [icon_name] := rfl

theorem iconNames_true {icon : Icon} (terms : Option (List String))
    (h : icon.search_terms = some terms) (icon_name : String) :
    iconNames true icon_name icon = Except.ok (icon_name :: terms.getD []) := by
  cases terms <;> simp [iconNames, h]

theorem iconNames_true_missing {icon : Icon} (h : icon.search_terms = none)
    (icon_name : String) :
    iconNames true icon_name icon = Except.error PyError.keyError := by
  simp [iconNames, h]

theorem entryOutput_names {ia : Bool} {icon_name : String} {icon : Icon}
    {names : List String} (hn : iconNames ia icon_name icon = Except.ok names)
    {u : String} {cp : Nat} (h1 : icon.unicode = some u)
    (h2 : unicode_symbol u = Except.ok cp) :
    entryOutput ia icon_name icon =
      ((names.filter (fun x => x ≠ "")).map (fun n => Line.entry n cp), none) := by
  simp [entryOutput, hn, emitFiltered_ok h1 h2]

theorem entryOutput_false_ok {nm : String} {icon : Icon} {u : String} {cp : Nat}
    (hname : nm ≠ "") (h1 : icon.unicode = some u)
    (h2 : unicode_symbol u = Except.ok cp) :
    entryOutput false nm icon = ([Line.entry nm cp], none) := by
  rw [entryOutput_names (iconNames_false nm icon) h1 h2]
  simp [List.filter_cons, hname]

theorem print_icon_names_cons (nm : String) (icon : Icon) (rest : Catalog)
    (ia : Bool) :
    print_icon_names ((nm, icon) :: rest) ia =
      match (entryOutput ia nm icon).2 with
      | some e => ((entryOutput ia nm icon).1, some e)
      | none => ((entryOutput ia nm icon).1 ++ (print_icon_names rest ia).1,
                 (print_icon_names rest ia).2) := rfl

/-! ### Claims C1, C6, C7: per-entry emission -/

/-- Claim C1 counterexample: an entry whose primary name is the empty
string produces no output line at all with includeAliases = false (the
empty name is filtered out), not "exactly one output line of the form
(?i)name = symbol" as the claim requires for every entry. -/
theorem C1_counterexample :
    entryOutput false "" ⟨some "f26e", some (some ["px"])⟩ = ([], none) := rfl

/-- Claim C1 (amended): for every entry whose primary name is non-empty,
whose unicode field is present and decodes, and whose alias data is
present, includeAliases = false emits exactly the one primary line and
no alias line, and includeAliases = true additionally emits one line per
non-empty alias, primary first, aliases in their original order. -/
theorem C1_amended_entry_lines : ∀ (name : String) (icon : Icon) (u : String)
    (cp : Nat) (terms : Option (List String)),
    name ≠ "" → icon.unicode = some u → unicode_symbol u = Except.ok cp →
    icon.search_terms = some terms →
    entryOutput false name icon = ([Line.entry name cp], none) ∧
    entryOutput true name icon =
      (Line.entry name cp ::
        ((terms.getD []).filter (fun x => x ≠ "")).map (fun a => Line.entry a cp),
       none) := by
  intro name icon u cp terms hname h1 h2 h3
  constructor
  · exact entryOutput_false_ok hname h1 h2
  · rw [entryOutput_names (iconNames_true terms h3 name) h1 h2]
    simp [List.filter_cons, hname]

/-- Witness for the amended C1 at the spec's own example entry. -/
theorem C1_witness :
    entryOutput false "500px" ⟨some "f26e", some (some ["px"])⟩ =
      ([Line.entry "500px" 62062], none) ∧
    entryOutput true "500px" ⟨some "f26e", some (some ["px"])⟩ =
      ([Line.entry "500px" 62062, Line.entry "px" 62062], none) := by
  have h := C1_amended_entry_lines "500px" ⟨some "f26e", some (some ["px"])⟩
    "f26e" 62062 (some ["px"]) (by decide) rfl rfl rfl
  simpa using h

/-- Claim C6 counterexample: an entry whose alias structure is absent
(the `search`/`terms` key is missing) makes includeAliases = true fail
with a KeyError and emit nothing, instead of being treated as an empty
alias list. -/
theorem C6_counterexample :
    entryOutput true "web" ⟨some "f26e", none⟩ = ([], some PyError.keyError) :=
  rfl

/-- Claim C6 (amended): an entry whose aliases are null (Python None) is
treated as having no aliases: includeAliases = true emits exactly the
primary-name line without failing (given a non-empty name and a
decodable unicode field); but an entry whose alias structure is absent
entirely raises KeyError. -/
theorem C6_amended_null_aliases : ∀ (name : String) (icon : Icon) (u : String)
    (cp : Nat),
    name ≠ "" → icon.unicode = some u → unicode_symbol u = Except.ok cp →
    (icon.search_terms = some none →
      entryOutput true name icon = ([Line.entry name cp], none)) ∧
    (icon.search_terms = none →
      entryOutput true name icon = ([], some PyError.keyError)) := by
  intro name icon u cp hname h1 h2
  constructor
  · intro h3
    rw [entryOutput_names (iconNames_true none h3 name) h1 h2]
    simp [List.filter_cons, hname]
  · intro h3
    simp [entryOutput, iconNames_true_missing h3 name]

/-- Witness for the amended C6: null aliases emit just the primary. -/
theorem C6_witness :
    entryOutput true "webb" ⟨some "f120", some none⟩ =
      ([Line.entry "webb" 61728], none) :=
  (C6_amended_null_aliases "webb" ⟨some "f120", some none⟩ "f120" 61728
    (by decide) rfl rfl).1 rfl

theorem mem_emitFiltered {icon : Icon} {name : String} {cp : Nat} :
    ∀ l : List String, Line.entry name cp ∈ (emitFiltered icon l).1 → name ∈ l := by
  intro l
  induction l with
  | nil => intro h; simp [emitFiltered] at h
  | cons a t ih =>
    intro h
    cases hu : icon.unicode with
    | none => simp [emitFiltered, hu] at h
    | some u =>
      cases hs : unicode_symbol u with
      | error e => simp [emitFiltered, hu, hs] at h
      | ok cp2 =>
        simp only [emitFiltered, hu, hs] at h
        rcases List.mem_cons.mp h with h1 | h1
        · have : name = a := by
            have := Line.entry.inj h1
            exact this.1
          rw [this]
          exact List.mem_cons_self a t
        · exact List.mem_cons_of_mem a (ih h1)

theorem mem_entryOutput_ne {ia : Bool} {nm : String} {icon : Icon}
    {name : String} {cp : Nat}
    (h : Line.entry name cp ∈ (entryOutput ia nm icon).1) : name ≠ "" := by
  unfold entryOutput at h
  cases hn : iconNames ia nm icon with
  | error e => rw [hn] at h; simp at h
  | ok names =>
    rw [hn] at h
    have hmem := mem_emitFiltered _ h
    have := List.mem_filter.mp hmem
    simpa using this.2

/-- Claim C7: no output line of the catalog loop carries an empty name,
for any catalog and either value of includeAliases: empty candidate
names (primary or alias) are filtered out before emission. -/
theorem C7_no_empty_names : ∀ (d : Catalog) (ia : Bool) (name : String) (cp : Nat),
    Line.entry name cp ∈ (print_icon_names d ia).1 → name ≠ "" := by
  intro d ia
  induction d with
  | nil => intro name cp h; simp [print_icon_names] at h
  | cons p rest ih =>
    intro name cp h
    obtain ⟨nm, icon⟩ := p
    rw [print_icon_names_cons] at h
    cases he : (entryOutput ia nm icon).2 with
    | some e =>
      rw [he] at h
      exact mem_entryOutput_ne h
    | none =>
      rw [he] at h
      simp only at h
      rcases List.mem_append.mp h with h1 | h1
      · exact mem_entryOutput_ne h1
      · exact ih name cp h1

/-- Witness for C7 on a concrete one-entry catalog. -/
theorem C7_witness : "a" ≠ "" :=
  C7_no_empty_names [("a", ⟨some "f120", none⟩)] false "a" 61728 (by decide)

/-! ### Claim C10: the alias lookup is short-circuited -/

theorem emitFiltered_unicode_congr (icon icon' : Icon)
    (h : icon.unicode = icon'.unicode) :
    ∀ l : List String, emitFiltered icon l = emitFiltered icon' l := by
  intro l
  induction l with
  | nil => rfl
  | cons a t ih =>
    simp only [emitFiltered, h, ih]

theorem entryOutput_false_congr (nm : String) (icon : Icon)
    (t : Option (Option (List String))) :
    entryOutput false nm ⟨icon.unicode, t⟩ = entryOutput false nm icon := by
  unfold entryOutput
  rw [iconNames_false, iconNames_false]
  show emitFiltered ⟨icon.unicode, t⟩ ([nm].filter (fun x => x ≠ "")) =
    emitFiltered icon ([nm].filter (fun x => x ≠ ""))
  exact emitFiltered_unicode_congr ⟨icon.unicode, t⟩ icon rfl _

/-- Claim C10 counterexample: a catalog whose only entry lacks the alias
structure entirely, run with includeAliases = false, does not "still
succeed": its unicode field is not hexadecimal, so the run raises and
exits non-zero. The claim's unconditional success statement is false. -/
theorem C10_counterexample :
    (∀ p ∈ cCat10, p.2.search_terms = none) ∧
    exitCode (main cGet10 cYaml10 (buildURI "master") "master" false) = 1 ∧
    main cGet10 cYaml10 (buildURI "master") "master" false =
      ([Line.header, Line.entry "alacritty" 61728, Line.entry "kitty" 61728],
       some (RunError.py PyError.valueError)) :=
  ⟨by decide, rfl, rfl⟩

/-- Claim C10 (amended): with includeAliases = false the alias data is
never read: replacing every entry's alias data changes nothing in the
output; consequently a catalog whose entries lack the alias structure
runs exactly as if it were present, and succeeds with one primary-name
line per entry provided each entry has a non-empty name and a decodable
unicode field. -/
theorem C10_amended_aliases_unread : ∀ d : Catalog,
    (∀ t : Option (Option (List String)),
      print_icon_names (d.map (fun p => (p.1, ⟨p.2.unicode, t⟩))) false =
        print_icon_names d false) ∧
    ((∀ p ∈ d, p.2.search_terms = none) →
     (∀ p ∈ d, p.1 ≠ "") →
     (∀ p ∈ d, ∃ u cp, p.2.unicode = some u ∧ unicode_symbol u = Except.ok cp) →
     (print_icon_names d false).2 = none ∧
     List.Forall₂ (fun (p : String × Icon) (l : Line) =>
         ∃ u cp, p.2.unicode = some u ∧ unicode_symbol u = Except.ok cp ∧
           l = Line.entry p.1 cp)
       d (print_icon_names d false).1) := by
  intro d
  constructor
  · intro t
    induction d with
    | nil => rfl
    | cons p rest ih =>
      obtain ⟨nm, icon⟩ := p
      simp only [List.map_cons]
      rw [print_icon_names_cons, print_icon_names_cons,
        entryOutput_false_congr, ih]
  · intro hmiss hname hdec
    induction d with
    | nil => exact ⟨rfl, List.Forall₂.nil⟩
    | cons p rest ih =>
      obtain ⟨nm, icon⟩ := p
      obtain ⟨u, cp, hu, hcp⟩ := hdec (nm, icon) (List.mem_cons_self _ _)
      have hn : nm ≠ "" := hname (nm, icon) (List.mem_cons_self _ _)
      have he := entryOutput_false_ok hn hu hcp
      obtain ⟨ih1, ih2⟩ := ih
        (fun q hq => hmiss q (List.mem_cons_of_mem _ hq))
        (fun q hq => hname q (List.mem_cons_of_mem _ hq))
        (fun q hq => hdec q (List.mem_cons_of_mem _ hq))
      rw [print_icon_names_cons, he]
      exact ⟨ih1, List.Forall₂.cons ⟨u, cp, hu, hcp, rfl⟩ ih2⟩

/-- Witness for the amended C10 on a concrete one-entry catalog. -/
theorem C10_witness :
    (print_icon_names [("a", ⟨some "f120", none⟩)] false).2 = none ∧
    List.Forall₂ (fun (p : String × Icon) (l : Line) =>
        ∃ u cp, p.2.unicode = some u ∧ unicode_symbol u = Except.ok cp ∧
          l = Line.entry p.1 cp)
      [("a", ⟨some "f120", none⟩)]
      (print_icon_names [("a", ⟨some "f120", none⟩)] false).1 :=
  (C10_amended_aliases_unread [("a", ⟨some "f120", none⟩)]).2
    (by decide) (by decide)
    (by
      intro p hp
      rw [List.mem_singleton] at hp
      subst hp
      exact ⟨"f120", 61728, rfl, rfl⟩)

/-! ### Claims C2, C5, C9: `main`, the header, and failure handling -/

theorem main_resp_eq (get : String → Option HttpResponse)
    (y : String → Option Catalog) (uri version : String) (ia : Bool)
    (resp : HttpResponse) (hg : get uri = some resp) :
    main get y uri version ia =
      match y resp.text with
      | none => ([], some RunError.parseExn)
      | some icons_dict =>
        match print_custom_icons with
        | (cls, some e) => (Line.header :: cls, some (RunError.py e))
        | (cls, none) =>
          (Line.header :: (cls ++ (print_icon_names icons_dict ia).1),
           Option.map RunError.py (print_icon_names icons_dict ia).2) := by
  unfold main
  rw [hg]

theorem main_ok_eq (get : String → Option HttpResponse)
    (y : String → Option Catalog) (uri version : String) (ia : Bool)
    (resp : HttpResponse) (d : Catalog)
    (hg : get uri = some resp) (hy : y resp.text = some d) :
    main get y uri version ia =
      (Line.header :: Line.entry "alacritty" 61728 ::
         Line.entry "kitty" 61728 :: (print_icon_names d ia).1,
       (print_icon_names d ia).2.map RunError.py) := by
  rw [main_resp_eq get y uri version ia resp hg, hy]
  rfl

/-- Claim C2: in every successful run, the first output line is the
header `[icons]`, immediately followed by the alacritty and kitty lines
(both at code point 0xF120 = 61728, in that order), and only then the
catalog-derived lines. -/
theorem C2_header_then_custom : ∀ (get : String → Option HttpResponse)
    (y : String → Option Catalog) (uri version : String) (ia : Bool)
    (resp : HttpResponse) (d : Catalog),
    get uri = some resp → y resp.text = some d →
    (main get y uri version ia).2 = none →
    (main get y uri version ia).1 =
      Line.header :: Line.entry "alacritty" 61728 ::
        Line.entry "kitty" 61728 :: (print_icon_names d ia).1 := by
  intro g y u v ia resp d hg hy _
  rw [main_ok_eq g y u v ia resp d hg hy]

/-- Witness for C2 on a concrete successful run. -/
theorem C2_witness :
    (main wGet wYaml (buildURI "master") "master" false).1 =
      Line.header :: Line.entry "alacritty" 61728 ::
        Line.entry "kitty" 61728 :: (print_icon_names wCatalog false).1 :=
  C2_header_then_custom wGet wYaml (buildURI "master") "master" false
    ⟨200, "yaml body"⟩ wCatalog rfl rfl rfl

/-- Claim C9: if the fetch raises, or the response body fails to parse,
nothing at all is written; the header and custom lines appear only once
both have succeeded, and then any error comes from catalog emission. -/
theorem C9_no_output_before_parse : ∀ (g : String → Option HttpResponse)
    (y : String → Option Catalog) (u v : String) (ia : Bool),
    (g u = none → main g y u v ia = ([], some RunError.fetchExn)) ∧
    (∀ resp, g u = some resp → y resp.text = none →
      main g y u v ia = ([], some RunError.parseExn)) ∧
    (∀ resp d, g u = some resp → y resp.text = some d →
      main g y u v ia =
        (Line.header :: Line.entry "alacritty" 61728 ::
           Line.entry "kitty" 61728 :: (print_icon_names d ia).1,
         (print_icon_names d ia).2.map RunError.py)) := by
  intro g y u v ia
  refine ⟨?_, ?_, ?_⟩
  · intro hg
    unfold main
    rw [hg]
  · intro resp hg hy
    rw [main_resp_eq g y u v ia resp hg, hy]
  · intro resp d hg hy
    exact main_ok_eq g y u v ia resp d hg hy

/-- Witness for C9: a raised fetch writes nothing. -/
theorem C9_witness :
    main gFail wYaml (buildURI "master") "master" true =
      ([], some RunError.fetchExn) :=
  (C9_no_output_before_parse gFail wYaml (buildURI "master") "master" true).1 rfl

/-- Claim C5 counterexample: a completed request with non-success HTTP
status 404 whose body parses as a catalog makes the run exit 0: the code
never inspects the status and treats the error body as a catalog, so the
claimed non-zero exit is false. -/
theorem C5_counterexample :
    cexGet (buildURI "master") = some ⟨404, "icons yaml body"⟩ ∧
    exitCode (main cexGet cexYaml (buildURI "master") "master" false) = 0 :=
  ⟨rfl, rfl⟩

/-- Claim C5 (amended): the HTTP status of a completed response is never
examined: the run's entire behavior depends only on the response body,
so a non-success response aborts the run only if processing of its body
fails. -/
theorem C5_amended_status_ignored : ∀ (y : String → Option Catalog)
    (uri version : String) (ia : Bool) (s1 s2 : Nat) (body : String),
    main (fun _ => some ⟨s1, body⟩) y uri version ia =
      main (fun _ => some ⟨s2, body⟩) y uri version ia := by
  intro y uri version ia s1 s2 body
  rfl

/-! ### Claim C8: the fetch URI -/

/-- Claim C8: the URI is exactly the fixed GitHub raw path with the
revision substituted in place, and an absent `--revision` resolves to
the default `"master"`. -/
theorem C8_uri_substitution :
    (∀ arg : Option String,
      buildURI (resolveRevision arg) =
        "https://raw.githubusercontent.com/FortAwesome/Font-Awesome/" ++
          (resolveRevision arg ++ "/metadata/icons.yml")) ∧
    resolveRevision none = "master" ∧
    resolveRevision (some "v6") = "v6" ∧
    buildURI (resolveRevision none) =
      "https://raw.githubusercontent.com/FortAwesome/Font-Awesome/master/metadata/icons.yml" := by
  refine ⟨fun arg => ?_, rfl, rfl, rfl⟩
  rfl

end GenerateIcons
